import Mathlib

/-!
Shallow embedding of the agentbox python-sdk session controller
(`agentbox/sandbox_sync/main.py`, `agentbox/sandbox_async/main.py`,
`agentbox/sandbox/sandbox_api.py`) together with theorems checking the
natural-language specification of the repository against the code.

Remote collaborators (the control plane, the in-sandbox execution daemon,
the httpx library) are modelled as oracles / explicit state, so that every
construction and lifecycle operation becomes a pure function from its
inputs and the oracle responses to its result and the trace of
control-plane calls it performs.
-/

namespace AgentBox

/-! ## Transport selection marker

`sandbox_sync/main.py` line 281, `sandbox_async/main.py` line 174 and the
classmethods all test `"brd" in sandbox_id.lower()`.  Substring containment
of python `in` is embedded over the character list. -/

/-- Substring test: does `pat` occur as a contiguous run inside the list? -/
def listContains (pat : List Char) : List Char → Bool
  | [] => pat.isEmpty
  | c :: rest => pat.isPrefixOf (c :: rest) || listContains pat rest

/-- python `str.lower` on one character, restricted to ASCII (the unicode
case mapping is elided). -/
def pyLower (c : Char) : Char :=
  if c.toNat ≥ 65 && c.toNat ≤ 90 then Char.ofNat (c.toNat + 32) else c

/-- `"brd" in sandbox_id.lower()` — the reserved routing marker test used by
every construction path of both controllers. -/
def containsBrd (sandbox_id : String) : Bool :=
  listContains "brd".data (sandbox_id.data.map pyLower)

example : containsBrd "i77asngphzmuz1d9wljnv-BRD-2C188ECE494941B0" = true := by decide
example : containsBrd "x-brd-7" = true := by decide
example : containsBrd "sandbox42" = false := by decide
example : containsBrd "debug_sandbox_id" = false := by decide

/-! ## SSH connect-command parsing

`main.py` parses the server-provided connect command with
`re.search(r'ssh\s+-p\s+(\d+).*?\s+([^@\s]+)@([\w\.-]+)', cmd)`.
The pattern is embedded atom by atom.  Character classes are the ASCII
part of the corresponding python classes (the unicode tables of python
`\s`, `\d`, `\w` are elided). -/

/-- python `\s` (ASCII part): space, tab, newline, carriage return,
vertical tab, form feed. -/
def pySpace (c : Char) : Bool :=
  c = ' ' || c = '\t' || c = '\n' || c = '\r' || c = '\x0b' || c = '\x0c'

/-- python `\w` (ASCII part): letters, digits, underscore. -/
def pyWord (c : Char) : Bool :=
  c.isAlphanum || c = '_'

/-- character class `[\w\.-]` of the host group. -/
def hostChar (c : Char) : Bool :=
  pyWord c || c = '.' || c = '-'

/-- character class `[^@\s]` of the username group. -/
def userChar (c : Char) : Bool :=
  !(c = '@' || pySpace c)

/-- Greedy one-or-more repetition of a character class (`X+`): consumes the
maximal nonempty run of characters satisfying `p`, failing on an empty run.
For every `X+` occurrence in this pattern the following atom rejects every
character of the class `X`, so maximal munch coincides with the
backtracking semantics of python `re`. -/
def munch1 (p : Char → Bool) (s : List Char) : Option (List Char × List Char) :=
  if (s.takeWhile p).isEmpty then none else some (s.takeWhile p, s.dropWhile p)

/-- Literal atom of the pattern: consume exactly the characters of `lit`
at the head of `s`. -/
def stripLit (lit : List Char) (s : List Char) : Option (List Char) :=
  if lit.isPrefixOf s then some (s.drop lit.length) else none

/-- Tail of the pattern after the lazy gap: `\s+([^@\s]+)@([\w\.-]+)`.
Returns the username group, the host group and the unconsumed rest. -/
def matchSshTail (s : List Char) : Option (String × String × List Char) :=
  match munch1 pySpace s with
  | none => none
  | some (_, r1) =>
    match munch1 userChar r1 with
    | none => none
    | some (user, r2) =>
      match stripLit "@".data r2 with
      | none => none
      | some r3 =>
        match munch1 hostChar r3 with
        | none => none
        | some (host, r4) => some (⟨user⟩, ⟨host⟩, r4)

/-- Lazy gap `.*?` followed by the tail: try the tail at the current
position first, otherwise consume one character (which `.` forbids to be a
newline) and retry. -/
def lazyDotTail (s : List Char) : Option (String × String) :=
  match matchSshTail s with
  | some (user, host, _) => some (user, host)
  | none =>
    match s with
    | [] => none
    | c :: rest => if c = '\n' then none else lazyDotTail rest

/-- Numeric value of the digits captured by group 1 (`int(...)` in the
source). -/
def digitsToNat (ds : List Char) : Nat :=
  ds.foldl (fun n c => 10 * n + (c.toNat - '0'.toNat)) 0

/-- Result of a successful match of the full pattern: the three captured
groups. -/
structure SSHMatch where
  port : Nat
  username : String
  host : String
  deriving DecidableEq, Repr

/-- Match the full pattern `ssh\s+-p\s+(\d+).*?\s+([^@\s]+)@([\w\.-]+)`
anchored at the head of `s`. -/
def matchSshAt (s : List Char) : Option SSHMatch :=
  match stripLit "ssh".data s with
  | none => none
  | some r0 =>
    match munch1 pySpace r0 with
    | none => none
    | some (_, r1) =>
      match stripLit "-p".data r1 with
      | none => none
      | some r2 =>
        match munch1 pySpace r2 with
        | none => none
        | some (_, r3) =>
          match munch1 Char.isDigit r3 with
          | none => none
          | some (ds, r4) =>
            match lazyDotTail r4 with
            | none => none
            | some (user, host) => some ⟨digitsToNat ds, user, host⟩

/-- `re.search`: try the pattern at every start position, left to right. -/
def reSearchSsh : List Char → Option SSHMatch
  | [] => none
  | c :: rest =>
    match matchSshAt (c :: rest) with
    | some m => some m
    | none => reSearchSsh rest

example :
    reSearchSsh "ssh -p 2222 user@10.0.0.5".data =
      some ⟨2222, "user", "10.0.0.5"⟩ := by decide

/-! ## Data model -/

/-- `packaging.version.Version` restricted to the plain three-component
release strings the gates compare against (epochs, pre- and post-releases
are elided); ordered lexicographically as in `packaging`. -/
structure PyVersion where
  major : Nat
  minor : Nat
  micro : Nat
  deriving DecidableEq, Repr

/-- Strict comparison `Version(a) < Version(b)` of `packaging` on release
triples: lexicographic. -/
def PyVersion.lt (a b : PyVersion) : Bool :=
  if a.major ≠ b.major then decide (a.major < b.major)
  else if a.minor ≠ b.minor then decide (a.minor < b.minor)
  else decide (a.micro < b.micro)

/-- `httpx.Limits` as configured by the SDK. -/
structure Limits where
  max_keepalive_connections : Nat
  max_connections : Nat
  keepalive_expiry : Nat
  deriving DecidableEq, Repr

/-- `SandboxApiBase._limits` (`sandbox/sandbox_api.py` lines 112-116): a
class-level constant, hence one value shared by every session of the
process. -/
def SandboxApiBase_limits : Limits :=
  { max_keepalive_connections := 10, max_connections := 20, keepalive_expiry := 20 }

/-- Modelled from the spec: the `ConnectionConfig` module
(`agentbox/connection_config.py`) is not under src/.  Per §3 it is a
per-session configuration holding extra per-sandbox headers (notably the
access-token header) and the debug flag; the controllers mutate only its
header map, by keyed assignment. -/
structure ConnectionConfig where
  headers : List (String × String) := []
  debug : Bool := false
  deriving DecidableEq, Repr

/-- python dict assignment `headers[k] = v`: replace the value at an
existing key, otherwise append the pair. -/
def setHeader (hs : List (String × String)) (k v : String) :
    List (String × String) :=
  if hs.any (fun p => p.1 == k) then
    hs.map (fun p => if p.1 == k then (k, v) else p)
  else hs ++ [(k, v)]

/-- One control-plane request, as recorded in the call trace of an
operation. -/
inductive ApiCall
  | getInfo (sandbox_id : String)
  | createSandbox (template : String) (timeout : Nat) (auto_pause : Bool)
  | getSsh (sandbox_id : String)
  | resumeSandbox (sandbox_id : String) (auto_pause : Bool) (timeout : Nat)
  | connectSandbox (sandbox_id : String) (timeout : Nat)
  | setTimeoutCall (sandbox_id : String) (timeout : Nat)
  | killCall (sandbox_id : String)
  | getMetricsCall (sandbox_id : String)
  deriving DecidableEq, Repr

/-- Is the call the resume-or-connect lifecycle call of the control plane
(the call the brd paths are specified to skip)? -/
def ApiCall.isResumeCall : ApiCall → Bool
  | .resumeSandbox _ _ _ => true
  | .connectSandbox _ _ => true
  | _ => false

/-- An execution-surface module initialized on the session by a
constructor. -/
inductive Surface
  | sshCommands2
  | sshWatchCommands2
  | sshFilesystem
  | adbShell
  | httpFilesystem
  | httpCommands
  | httpPty
  deriving DecidableEq, Repr

/-- Does the surface belong to the SSH/ADB execution surface set? -/
def Surface.isSsh : Surface → Bool
  | .sshCommands2 => true
  | .sshWatchCommands2 => true
  | .sshFilesystem => true
  | .adbShell => true
  | _ => false

/-- Surfaces initialized by the sync constructor on the SSH/ADB branch
(`sandbox_sync/main.py` lines 320-346, in source order). -/
def syncSshSurfaces : List Surface :=
  [.sshWatchCommands2, .sshCommands2, .sshFilesystem, .adbShell]

/-- Surfaces initialized by the async constructor on the SSH/ADB branch
(`sandbox_async/main.py` lines 182-215, in source order). -/
def asyncSshSurfaces : List Surface :=
  [.sshCommands2, .sshWatchCommands2, .sshFilesystem, .adbShell]

/-- Surfaces initialized on the HTTP branch by both constructors
(filesystem, commands, pty). -/
def httpSurfaces : List Surface :=
  [.httpFilesystem, .httpCommands, .httpPty]

/-- The session controller state after construction: identity, cached
version, access token, configuration, SSH endpoint attributes, the
initialized surfaces, the headers baked into the envd HTTP client (HTTP
backend only), the shared limits object and the identity of the privately
allocated connection pool (`None` when no transport is built). -/
structure Session where
  sandbox_id : String
  envd_version : Option PyVersion
  envd_access_token : Option String
  config : ConnectionConfig
  ssh_host : Option String
  ssh_port : Option Nat
  ssh_username : Option String
  ssh_password : Option String
  surfaces : List Surface
  envdClientHeaders : Option (List (String × String))
  limits : Limits
  poolId : Option Nat
  deriving DecidableEq, Repr

/-- Response of the control-plane get-info call, restricted to the fields
the controllers read (`SandboxInfo.envd_version`,
`SandboxInfo._envd_access_token`); the `str` to `Version` conversion of
`packaging` is elided by carrying the parsed triple. -/
structure InfoResp where
  envd_version : Option PyVersion
  envd_access_token : Option String
  deriving DecidableEq, Repr

/-- Response of the create call, restricted to the fields read. -/
structure CreateResp where
  sandbox_id : String
  envd_version : Option PyVersion
  envd_access_token : Option String
  deriving DecidableEq, Repr

/-- Response of the get-ssh call: the connect-command string and the
password. -/
structure SshResp where
  connect_command : String
  auth_password : String
  deriving DecidableEq, Repr

/-- Oracle for the remote control plane: what each call answers. -/
structure ControlPlane where
  infoResp : String → InfoResp
  createResp : String → Nat → CreateResp
  sshResp : String → SshResp
  connResp : String → Nat → InfoResp
  resumeResp : String → Bool → Nat → InfoResp

/-- The keyword options of the sync constructor (`SandboxOpts` plus the
`debug` flag of `ApiParams`). -/
structure SandboxOpts where
  sandbox_id : Option String := none
  connection_config : Option ConnectionConfig := none
  envd_version : Option PyVersion := none
  envd_access_token : Option String := none
  ssh_host : Option String := none
  ssh_port : Option Nat := none
  ssh_username : Option String := none
  ssh_password : Option String := none
  debug : Bool := false

/-- python truthiness of an optional string (`if sandbox_id and ...`):
false for `None` and for the empty string. -/
def truthyStr : Option String → Bool
  | some s => s != ""
  | none => false

/-- python `x or d` on an optional number: the default replaces both
`None` and `0`. -/
def pyOrNat (x : Option Nat) (d : Nat) : Nat :=
  match x with
  | some n => if n == 0 then d else n
  | none => d

/-- python `x or d` on an optional string: the default replaces both
`None` and the empty string. -/
def pyOrStr (x : Option String) (d : String) : String :=
  match x with
  | some s => if s == "" then d else s
  | none => d

/-- `SandboxSetup.default_template` (the setup module is not under src/;
the docstrings state the default `base` template). -/
def default_template : String := "base"

/-- Modelled from the spec: `SandboxSetup.default_sandbox_timeout` is not
under src/; §4.2 fixes the default timeout at a constant 300 seconds. -/
def default_sandbox_timeout : Nat := 300

/-- The message of the guard exception of the sync constructor
(lines 179-182). -/
def guardMsg : String :=
  "Cannot set metadata or timeout when connecting to an existing sandbox. Use Sandbox.connect method instead."

/-- Line 185: take the connection config passed in the options, or build
one from the remaining keyword arguments. -/
def ctorConfig (opts : SandboxOpts) : ConnectionConfig :=
  match opts.connection_config with
  | some c => c
  | none => { headers := [], debug := opts.debug }

/-- The message of the fatal SSH parse exception (line 297 and the
parallel sites). -/
def parseErrMsg : String := "Could not parse SSH connection details"

/-! ## Sync constructor (`Sandbox.__init__`, `sandbox_sync/main.py`
lines 137-371)

The constructor is embedded as a pure function from the keyword
arguments, the control-plane oracle and a fresh-pool counter to the trace
of control-plane calls and either an exception (as `Except.error` with
the exception message) or the constructed session together with the next
counter value. -/

/-- Common tail of the sync constructor (lines 278-371): allocate the
per-session transport, then branch on the routing marker — the SSH/ADB
branch fetches and parses the SSH credentials and initializes the SSH
surface set, the HTTP branch builds the envd client over the config
headers and initializes the HTTP surface set. -/
def syncCtorTail (cp : ControlPlane) (cfg : ConnectionConfig)
    (sshH : Option String) (sshP : Option Nat) (sshU : Option String)
    (sshPw : Option String) (sandbox_id : String)
    (envd_version : Option PyVersion) (envd_access_token : Option String)
    (calls : List ApiCall) (fresh : Nat) :
    List ApiCall × Except String (Session × Nat) :=
  if containsBrd sandbox_id then
    match reSearchSsh (cp.sshResp sandbox_id).connect_command.data with
    | some m =>
        (calls ++ [.getSsh sandbox_id],
         .ok ({ sandbox_id := sandbox_id, envd_version := envd_version,
                envd_access_token := envd_access_token, config := cfg,
                ssh_host := some m.host, ssh_port := some m.port,
                ssh_username := some m.username,
                ssh_password := some (cp.sshResp sandbox_id).auth_password,
                surfaces := syncSshSurfaces, envdClientHeaders := none,
                limits := SandboxApiBase_limits, poolId := some fresh },
              fresh + 1))
    | none => (calls ++ [.getSsh sandbox_id], .error parseErrMsg)
  else
    (calls,
     .ok ({ sandbox_id := sandbox_id, envd_version := envd_version,
            envd_access_token := envd_access_token, config := cfg,
            ssh_host := sshH, ssh_port := sshP, ssh_username := sshU,
            ssh_password := sshPw, surfaces := httpSurfaces,
            envdClientHeaders := some cfg.headers,
            limits := SandboxApiBase_limits, poolId := some fresh },
          fresh + 1))

/-- `Sandbox.__init__`.  Faithful to the source order: the
metadata/template guard (lines 178-182), the connection config
(line 185), the debug branch (219-234), the existing-sandbox branch with
its get-info call (235-250), the create branch (252-276), then the common
tail. -/
def syncCtor (cp : ControlPlane) (template : Option String)
    (timeout : Option Nat) (metadata : Option (List (String × String)))
    (opts : SandboxOpts) (fresh : Nat) :
    List ApiCall × Except String (Session × Nat) :=
  if truthyStr opts.sandbox_id && (metadata.isSome || template.isSome) then
    ([], .error guardMsg)
  else
    let cfg0 : ConnectionConfig := ctorConfig opts
    if cfg0.debug then
      syncCtorTail cp cfg0 (some "127.0.0.1") (some 22) (some "debug")
        (some "debug") "debug_sandbox_id" none none [] fresh
    else
      match opts.sandbox_id with
      | some sid =>
        let resp := cp.infoResp sid
        let version :=
          match opts.envd_version with
          | some v => some v
          | none => resp.envd_version
        let token :=
          match opts.envd_access_token with
          | some t => some t
          | none => resp.envd_access_token
        let cfg :=
          match resp.envd_access_token with
          | some t => { cfg0 with headers := setHeader cfg0.headers "X-Access-Token" t }
          | none => cfg0
        syncCtorTail cp cfg opts.ssh_host opts.ssh_port opts.ssh_username
          opts.ssh_password sid version token [.getInfo sid] fresh
      | none =>
        let tmpl := pyOrStr template default_template
        let tout := pyOrNat timeout default_sandbox_timeout
        let resp := cp.createResp tmpl tout
        let version :=
          match opts.envd_version with
          | some v => some v
          | none => resp.envd_version
        let token :=
          match resp.envd_access_token with
          | some t =>
            match opts.envd_access_token with
            | some t0 => some t0
            | none => some t
          | none => opts.envd_access_token
        let cfg :=
          match resp.envd_access_token with
          | some t => { cfg0 with headers := setHeader cfg0.headers "X-Access-Token" t }
          | none => cfg0
        syncCtorTail cp cfg opts.ssh_host opts.ssh_port opts.ssh_username
          opts.ssh_password resp.sandbox_id version token
          [.createSandbox tmpl tout false] fresh

/-! ## Async constructor (`AsyncSandbox.__init__`, `sandbox_async/main.py`
lines 148-242)

The async constructor performs no network call: it stores the options and
branches on the routing marker; the transport (and so the pool) is only
built on the HTTP branch. -/

/-- The required keyword options of the async constructor
(`AsyncSandboxOpts`, restricted to the fields the claims touch). -/
structure AsyncSandboxOpts where
  sandbox_id : String
  connection_config : ConnectionConfig
  envd_version : Option PyVersion := none
  envd_access_token : Option String := none
  ssh_host : Option String := none
  ssh_port : Option Nat := none
  ssh_username : Option String := none
  ssh_password : Option String := none

/-- `AsyncSandbox.__init__`. -/
def asyncCtor (opts : AsyncSandboxOpts) (fresh : Nat) : Session × Nat :=
  if containsBrd opts.sandbox_id then
    ({ sandbox_id := opts.sandbox_id, envd_version := opts.envd_version,
       envd_access_token := opts.envd_access_token,
       config := opts.connection_config, ssh_host := opts.ssh_host,
       ssh_port := opts.ssh_port, ssh_username := opts.ssh_username,
       ssh_password := opts.ssh_password, surfaces := asyncSshSurfaces,
       envdClientHeaders := none, limits := SandboxApiBase_limits,
       poolId := none }, fresh)
  else
    ({ sandbox_id := opts.sandbox_id, envd_version := opts.envd_version,
       envd_access_token := opts.envd_access_token,
       config := opts.connection_config, ssh_host := opts.ssh_host,
       ssh_port := opts.ssh_port, ssh_username := opts.ssh_username,
       ssh_password := opts.ssh_password, surfaces := httpSurfaces,
       envdClientHeaders := some opts.connection_config.headers,
       limits := SandboxApiBase_limits, poolId := some fresh }, fresh + 1)

/-! ## Sync classmethods (`Sandbox._cls_connect` lines 884-950,
`Sandbox._cls_resume` lines 1013-1081)

On the SSH/ADB branch both skip the resume-or-connect lifecycle call,
fetch sandbox info and fresh SSH credentials, parse the connect command
and hand everything to the constructor (which, receiving a `sandbox_id`,
fetches info and SSH credentials once more).  On the HTTP branch they
issue the connect (resp. resume) call, extract the access token into the
extra headers and hand off to the constructor. -/

/-- `Sandbox._cls_connect`. -/
def cls_connect (cp : ControlPlane) (sandbox_id : String)
    (timeout : Option Nat) (fresh : Nat) :
    List ApiCall × Except String (Session × Nat) :=
  if containsBrd sandbox_id then
    let info := cp.infoResp sandbox_id
    let cfg : ConnectionConfig := { headers := [], debug := false }
    let sshInfo := cp.sshResp sandbox_id
    match reSearchSsh sshInfo.connect_command.data with
    | some m =>
        let r := syncCtor cp none none none
          { sandbox_id := some sandbox_id, connection_config := some cfg,
            envd_version := info.envd_version,
            envd_access_token := info.envd_access_token,
            ssh_host := some m.host, ssh_port := some m.port,
            ssh_username := some m.username,
            ssh_password := some sshInfo.auth_password } fresh
        ([.getInfo sandbox_id, .getSsh sandbox_id] ++ r.1, r.2)
    | none =>
        ([.getInfo sandbox_id, .getSsh sandbox_id], .error parseErrMsg)
  else
    let t := pyOrNat timeout default_sandbox_timeout
    let resp := cp.connResp sandbox_id t
    let hs :=
      match resp.envd_access_token with
      | some tok => setHeader [] "X-Access-Token" tok
      | none => []
    let cfg : ConnectionConfig := { headers := hs, debug := false }
    let r := syncCtor cp none none none
      { sandbox_id := some sandbox_id, connection_config := some cfg,
        envd_version := resp.envd_version,
        envd_access_token := resp.envd_access_token } fresh
    ([.connectSandbox sandbox_id t] ++ r.1, r.2)

/-- `Sandbox._cls_resume`. -/
def cls_resume (cp : ControlPlane) (sandbox_id : String)
    (auto_pause : Bool) (timeout : Option Nat) (fresh : Nat) :
    List ApiCall × Except String (Session × Nat) :=
  if containsBrd sandbox_id then
    let info := cp.infoResp sandbox_id
    let cfg : ConnectionConfig := { headers := [], debug := false }
    let sshInfo := cp.sshResp sandbox_id
    match reSearchSsh sshInfo.connect_command.data with
    | some m =>
        let r := syncCtor cp none none none
          { sandbox_id := some sandbox_id, connection_config := some cfg,
            envd_version := info.envd_version,
            envd_access_token := info.envd_access_token,
            ssh_host := some m.host, ssh_port := some m.port,
            ssh_username := some m.username,
            ssh_password := some sshInfo.auth_password } fresh
        ([.getInfo sandbox_id, .getSsh sandbox_id] ++ r.1, r.2)
    | none =>
        ([.getInfo sandbox_id, .getSsh sandbox_id], .error parseErrMsg)
  else
    let t := pyOrNat timeout default_sandbox_timeout
    let resp := cp.resumeResp sandbox_id auto_pause t
    let hs :=
      match resp.envd_access_token with
      | some tok => setHeader [] "X-Access-Token" tok
      | none => []
    let cfg : ConnectionConfig := { headers := hs, debug := false }
    let r := syncCtor cp none none none
      { sandbox_id := some sandbox_id, connection_config := some cfg,
        envd_version := resp.envd_version,
        envd_access_token := resp.envd_access_token } fresh
    ([.resumeSandbox sandbox_id auto_pause t] ++ r.1, r.2)

/-! ## Health probe (`is_running`, sync lines 373-413, async 244-284) -/

/-- What the health probe of the execution daemon comes back with: a
response with a status code, or an `httpx` timeout. -/
inductive ProbeOutcome
  | status (code : Nat)
  | timeout
  deriving DecidableEq, Repr

/-- The error kinds reachable from the probe: the distinguished
request-timeout error, a decoded daemon API error, or a generic network
error (never produced by `is_running`, listed so the distinction is
expressible). -/
inductive EnvdError
  | timeoutErr
  | apiErr (code : Nat)
  | genericNetwork
  deriving DecidableEq, Repr

/-- Modelled from the spec: `handle_envd_api_exception`
(`agentbox/envd/api.py`, not under src/) decodes a non-success response
into a typed daemon error and yields nothing on a success response
(§6: 2xx healthy, other codes carry an error payload). -/
def handle_envd_api_exception (code : Nat) : Option EnvdError :=
  if 200 ≤ code ∧ code < 300 then none else some (.apiErr code)

/-- Modelled from the spec: `format_request_timeout_error`
(`agentbox/exceptions.py`, not under src/) builds the distinguished
timeout error kind (§7). -/
def format_request_timeout_error : EnvdError := .timeoutErr

/-- `Sandbox.is_running` / `AsyncSandbox.is_running`: SSH/ADB-backed
sessions (no envd client) report `true` without a probe; otherwise a 502
probe response is downgraded to `false`, any other non-success response is
decoded and raised, and an `httpx` timeout is re-raised as the
distinguished timeout error. -/
def is_running (s : Session) (probe : ProbeOutcome) : Except EnvdError Bool :=
  match s.envdClientHeaders with
  | none => .ok true
  | some _ =>
    match probe with
    | .timeout => .error format_request_timeout_error
    | .status code =>
      if code = 502 then .ok false
      else
        match handle_envd_api_exception code with
        | some e => .error e
        | none => .ok true

/-! ## Metrics gate (`get_metrics`, sync lines 696-726, async 860-890) -/

/-- `Sandbox.get_metrics` (the version-gate and call portion): returns the
trace of control-plane calls and either the capability error or the flag
telling whether the non-fatal disk-metrics warning was logged. -/
def Sandbox_get_metrics (s : Session) : List ApiCall × Except String Bool :=
  match s.envd_version with
  | some v =>
    if PyVersion.lt v ⟨0, 1, 5⟩ then
      ([], .error "Metrics are not supported in this version of the sandbox, please rebuild your template.")
    else
      ([.getMetricsCall s.sandbox_id], .ok (PyVersion.lt v ⟨0, 2, 4⟩))
  | none => ([.getMetricsCall s.sandbox_id], .ok false)

/-! ## set_timeout (sync lines 598-618, async 509-529) -/

/-- `Sandbox.set_timeout`: the method only issues the control-plane
set-timeout call; it assigns no attribute of the session, so the state it
passes on is the state it received. -/
def Sandbox_set_timeout (s : Session) (timeout : Nat) : Session × ApiCall :=
  (s, .setTimeoutCall s.sandbox_id timeout)

/-- Modelled from the spec: the control-plane side of set-timeout (§4.2)
fully replaces the auto-kill deadline of the sandbox with `now + seconds`
— no additive semantics, the previous deadline is discarded. -/
def remote_set_timeout (_deadline : Option Nat) (now seconds : Nat) :
    Option Nat :=
  some (now + seconds)

/-! ## kill (sync lines 545-556, async 454-468) -/

/-- Modelled from the spec: `SandboxApi._cls_kill`
(`sandbox_sync/sandbox_api.py`, not under src/) asks the control plane to
kill the sandbox; the control plane answers whether a sandbox was
actually found and killed, and an unknown identity is reported as
`false`, not as an error (§4.2, §7).  The set of live sandboxes of the
control plane is threaded explicitly. -/
def cls_kill (running : List String) (sandbox_id : String) :
    List String × Bool :=
  if sandbox_id ∈ running then
    (running.filter (fun x => x != sandbox_id), true)
  else (running, false)

/-! ## The envd HTTP client and the session operations as state passing -/

/-- An HTTP request issued to the execution daemon. -/
structure HttpRequest where
  route : String
  headers : List (String × String)
  deriving DecidableEq, Repr

/-- `httpx.Client(base_url=..., transport=..., headers=...)` attaches its
construction-time header map to every request it issues (library
contract); the client headers are fixed at session construction
(lines 349-353). -/
def envdGet (clientHeaders : List (String × String)) (route : String) :
    HttpRequest :=
  { route := route, headers := clientHeaders }

/-- A lifecycle operation invoked on an existing session. -/
inductive SessionOp
  | isRunningOp (probe : ProbeOutcome)
  | setTimeoutOp (seconds : Nat)
  | killOp
  | getMetricsOp
  | pauseOp
  | getInfoOp

/-- The session state after one lifecycle operation: each method of the
source reads `self` but assigns no attribute of it, which the embedding
records by passing the state through the per-operation functions. -/
def applyOp (s : Session) : SessionOp → Session
  | .isRunningOp _ => s
  | .setTimeoutOp n => (Sandbox_set_timeout s n).1
  | .killOp => s
  | .getMetricsOp => s
  | .pauseOp => s
  | .getInfoOp => s

/-! ## Helper lemmas -/

/-- A successful `munch1` leaves exactly the `dropWhile` rest. -/
theorem munch1_rest {p : Char → Bool} {s t r : List Char}
    (h : munch1 p s = some (t, r)) : r = s.dropWhile p := by
  unfold munch1 at h
  split at h
  · simp at h
  · simp only [Option.some.injEq, Prod.mk.injEq] at h
    exact h.2.symm

/-- Membership survives `dropWhile`. -/
theorem mem_of_mem_dropWhile {p : Char → Bool} {l : List Char} {a : Char}
    (h : a ∈ l.dropWhile p) : a ∈ l :=
  (List.dropWhile_suffix p).subset h

/-- A successful `stripLit` leaves a sublist: membership in the rest
transfers to the input. -/
theorem stripLit_rest {lit s r : List Char} (h : stripLit lit s = some r)
    (a : Char) (ha : a ∈ r) : a ∈ s := by
  unfold stripLit at h
  split at h
  · simp only [Option.some.injEq] at h
    exact List.drop_subset _ _ (h ▸ ha)
  · simp at h

/-- A matched literal head is contained in the input list. -/
theorem mem_of_isPrefixOf {lit s : List Char}
    (hp : lit.isPrefixOf s = true) (a : Char) (ha : a ∈ lit) : a ∈ s := by
  induction lit generalizing s with
  | nil => simp at ha
  | cons c rest ih =>
    cases s with
    | nil => simp [List.isPrefixOf] at hp
    | cons d t =>
      simp only [List.isPrefixOf, Bool.and_eq_true, beq_iff_eq] at hp
      rcases List.mem_cons.mp ha with rfl | hmem
      · rw [hp.1]
        exact List.mem_cons_self _ _
      · exact List.mem_cons_of_mem _ (ih hp.2 hmem)

/-- A successful `stripLit` found the literal: its characters occur in
the input. -/
theorem stripLit_mem {lit s r : List Char} (h : stripLit lit s = some r)
    (a : Char) (ha : a ∈ lit) : a ∈ s := by
  unfold stripLit at h
  split at h
  · rename_i hp
    exact mem_of_isPrefixOf hp a ha
  · simp at h

/-- A successful tail match consumed an at sign. -/
theorem matchSshTail_at {s : List Char} {x}
    (h : matchSshTail s = some x) : '@' ∈ s := by
  unfold matchSshTail at h
  cases h1 : munch1 pySpace s with
  | none => simp [h1] at h
  | some pr1 =>
    obtain ⟨t1, r1⟩ := pr1
    simp only [h1] at h
    cases h2 : munch1 userChar r1 with
    | none => simp [h2] at h
    | some pr2 =>
      obtain ⟨t2, r2⟩ := pr2
      simp only [h2] at h
      cases h3 : stripLit "@".data r2 with
      | none => simp [h3] at h
      | some r3 =>
        have hmem : '@' ∈ r2 := stripLit_mem h3 '@' (by decide)
        exact mem_of_mem_dropWhile
          (munch1_rest h1 ▸ mem_of_mem_dropWhile (munch1_rest h2 ▸ hmem))

/-- A successful lazy-gap-plus-tail match consumed an at sign. -/
theorem lazyDotTail_at {s : List Char} {x}
    (h : lazyDotTail s = some x) : '@' ∈ s := by
  induction s with
  | nil =>
    cases h1 : matchSshTail ([] : List Char) with
    | some y => exact matchSshTail_at h1
    | none => rw [lazyDotTail, h1] at h; simp at h
  | cons c rest ih =>
    rw [lazyDotTail] at h
    cases h1 : matchSshTail (c :: rest) with
    | some y => exact matchSshTail_at h1
    | none =>
      rw [h1] at h
      by_cases hc : c = '\n'
      · simp [hc] at h
      · simp only [hc, if_false] at h
        exact List.mem_cons_of_mem _ (ih h)

/-- A successful anchored match of the full pattern consumed an at
sign. -/
theorem matchSshAt_at {s : List Char} {x}
    (h : matchSshAt s = some x) : '@' ∈ s := by
  unfold matchSshAt at h
  cases h0 : stripLit "ssh".data s with
  | none => simp [h0] at h
  | some r0 =>
    simp only [h0] at h
    cases h1 : munch1 pySpace r0 with
    | none => simp [h1] at h
    | some pr1 =>
      obtain ⟨t1, r1⟩ := pr1
      simp only [h1] at h
      cases h2 : stripLit "-p".data r1 with
      | none => simp [h2] at h
      | some r2 =>
        simp only [h2] at h
        cases h3 : munch1 pySpace r2 with
        | none => simp [h3] at h
        | some pr3 =>
          obtain ⟨t3, r3⟩ := pr3
          simp only [h3] at h
          cases h4 : munch1 Char.isDigit r3 with
          | none => simp [h4] at h
          | some pr4 =>
            obtain ⟨ds, r4⟩ := pr4
            simp only [h4] at h
            cases h5 : lazyDotTail r4 with
            | none => simp [h5] at h
            | some uh =>
              have hm4 : '@' ∈ r4 := lazyDotTail_at h5
              have hm3 : '@' ∈ r3 :=
                mem_of_mem_dropWhile (munch1_rest h4 ▸ hm4)
              have hm2 : '@' ∈ r2 :=
                mem_of_mem_dropWhile (munch1_rest h3 ▸ hm3)
              have hm1 : '@' ∈ r1 := stripLit_rest h2 '@' hm2
              have hm0 : '@' ∈ r0 :=
                mem_of_mem_dropWhile (munch1_rest h1 ▸ hm1)
              exact stripLit_rest h0 '@' hm0

/-- A successful search consumed an at sign: a connect-command string
without `@` never matches the pattern. -/
theorem reSearchSsh_at {s : List Char} {x}
    (h : reSearchSsh s = some x) : '@' ∈ s := by
  induction s with
  | nil => simp [reSearchSsh] at h
  | cons c rest ih =>
    rw [reSearchSsh] at h
    cases h1 : matchSshAt (c :: rest) with
    | some m => exact matchSshAt_at h1
    | none => rw [h1] at h; exact List.mem_cons_of_mem _ (ih h)

/-- Unpacking of a successful run of the common constructor tail. -/
theorem syncCtorTail_ok {cp cfg sshH sshP sshU sshPw sandbox_id v t calls
    fresh s n}
    (h : (syncCtorTail cp cfg sshH sshP sshU sshPw sandbox_id v t calls
            fresh).2 = .ok (s, n)) :
    s.sandbox_id = sandbox_id ∧ s.envd_version = v ∧
    s.envd_access_token = t ∧ s.config = cfg ∧
    s.limits = SandboxApiBase_limits ∧ s.poolId = some fresh ∧
    n = fresh + 1 ∧
    s.surfaces =
      (if containsBrd sandbox_id then syncSshSurfaces else httpSurfaces) ∧
    s.envdClientHeaders =
      (if containsBrd sandbox_id then none else some cfg.headers) := by
  unfold syncCtorTail at h
  by_cases hb : containsBrd sandbox_id = true
  · simp only [hb, if_true] at h
    cases hre : reSearchSsh (cp.sshResp sandbox_id).connect_command.data with
    | none => simp [hre] at h
    | some m =>
      simp only [hre, Except.ok.injEq, Prod.mk.injEq] at h
      obtain ⟨hs, hn⟩ := h
      subst hs
      simp [hb, hn.symm]
  · simp only [Bool.not_eq_true] at hb
    simp only [hb, Bool.false_eq_true, if_false, Except.ok.injEq,
      Prod.mk.injEq] at h
    obtain ⟨hs, hn⟩ := h
    subst hs
    simp [hb, hn.symm]

/-- Every call in the trace of the constructor tail is either inherited
or the SSH credential fetch. -/
theorem syncCtorTail_calls {cp cfg sshH sshP sshU sshPw sandbox_id v t
    calls fresh} {a : ApiCall}
    (ha : a ∈ (syncCtorTail cp cfg sshH sshP sshU sshPw sandbox_id v t
                calls fresh).1) :
    a ∈ calls ∨ a = .getSsh sandbox_id := by
  unfold syncCtorTail at ha
  by_cases hb : containsBrd sandbox_id = true
  · simp only [hb, if_true] at ha
    cases hre : reSearchSsh (cp.sshResp sandbox_id).connect_command.data with
    | none => simp only [hre] at ha; simpa using ha
    | some m => simp only [hre] at ha; simpa using ha
  · simp only [Bool.not_eq_true] at hb
    simp only [hb, Bool.false_eq_true, if_false] at ha
    exact Or.inl ha

/-- Every successful constructor run yields a session whose surfaces,
limits and private pool follow the routing schema. -/
theorem syncCtor_ok {cp template timeout metadata opts fresh s n}
    (h : (syncCtor cp template timeout metadata opts fresh).2 =
          .ok (s, n)) :
    s.limits = SandboxApiBase_limits ∧ s.poolId = some fresh ∧
    n = fresh + 1 ∧
    s.surfaces =
      (if containsBrd s.sandbox_id then syncSshSurfaces else httpSurfaces) ∧
    s.envdClientHeaders =
      (if containsBrd s.sandbox_id then none
       else some s.config.headers) := by
  unfold syncCtor at h
  by_cases hg : (truthyStr opts.sandbox_id
      && (metadata.isSome || template.isSome)) = true
  · simp [hg] at h
  · simp only [Bool.not_eq_true] at hg
    simp only [hg, Bool.false_eq_true, if_false] at h
    by_cases hd : (ctorConfig opts).debug = true
    · simp only [hd, if_true] at h
      obtain ⟨hid, hv, ht, hcfg, hlim, hpool, hn, hsurf, hclient⟩ :=
        syncCtorTail_ok h
      exact ⟨hlim, hpool, hn, by rw [hsurf, hid],
        by rw [hclient, hid, hcfg]⟩
    · simp only [Bool.not_eq_true] at hd
      simp only [hd, Bool.false_eq_true, if_false] at h
      cases ho : opts.sandbox_id with
      | some sid =>
        simp only [ho] at h
        obtain ⟨hid, hv, ht, hcfg, hlim, hpool, hn, hsurf, hclient⟩ :=
          syncCtorTail_ok h
        exact ⟨hlim, hpool, hn, by rw [hsurf, hid],
          by rw [hclient, hid, hcfg]⟩
      | none =>
        simp only [ho] at h
        obtain ⟨hid, hv, ht, hcfg, hlim, hpool, hn, hsurf, hclient⟩ :=
          syncCtorTail_ok h
        exact ⟨hlim, hpool, hn, by rw [hsurf, hid],
          by rw [hclient, hid, hcfg]⟩

/-- The constructor never issues the resume-or-connect lifecycle call. -/
theorem syncCtor_no_resume {cp template timeout metadata opts fresh}
    {a : ApiCall}
    (ha : a ∈ (syncCtor cp template timeout metadata opts fresh).1) :
    a.isResumeCall = false := by
  unfold syncCtor at ha
  by_cases hg : (truthyStr opts.sandbox_id
      && (metadata.isSome || template.isSome)) = true
  · simp [hg] at ha
  · simp only [Bool.not_eq_true] at hg
    simp only [hg, Bool.false_eq_true, if_false] at ha
    by_cases hd : (ctorConfig opts).debug = true
    · simp only [hd, if_true] at ha
      rcases syncCtorTail_calls ha with hm | hm
      · simp at hm
      · subst hm; rfl
    · simp only [Bool.not_eq_true] at hd
      simp only [hd, Bool.false_eq_true, if_false] at ha
      cases ho : opts.sandbox_id with
      | some sid =>
        simp only [ho] at ha
        rcases syncCtorTail_calls ha with hm | hm
        · simp only [List.mem_singleton] at hm
          subst hm; rfl
        · subst hm; rfl
      | none =>
        simp only [ho] at ha
        rcases syncCtorTail_calls ha with hm | hm
        · simp only [List.mem_singleton] at hm
          subst hm; rfl
        · subst hm; rfl

/-- The key-value pair written by a dict assignment is in the resulting
header map. -/
theorem mem_setHeader (hs : List (String × String)) (k v : String) :
    (k, v) ∈ setHeader hs k v := by
  unfold setHeader
  split
  · rename_i hany
    rw [List.any_eq_true] at hany
    obtain ⟨p, hp, hpk⟩ := hany
    have hm := List.mem_map_of_mem
      (fun q => if q.1 == k then (k, v) else q) hp
    simpa [hpk] using hm
  · simp

/-- On the plain create path, a token in the create response ends up both
as the session token and in the header map of the session config. -/
theorem syncCtor_create_token {cp template timeout metadata opts fresh s
    n t}
    (hsid : opts.sandbox_id = none)
    (htok : opts.envd_access_token = none)
    (hdbg : (ctorConfig opts).debug = false)
    (h : (syncCtor cp template timeout metadata opts fresh).2 =
          .ok (s, n))
    (hresp : (cp.createResp (pyOrStr template default_template)
        (pyOrNat timeout default_sandbox_timeout)).envd_access_token =
          some t) :
    s.envd_access_token = some t ∧
    ("X-Access-Token", t) ∈ s.config.headers := by
  unfold syncCtor at h
  have hg : (truthyStr opts.sandbox_id
      && (metadata.isSome || template.isSome)) = false := by
    simp [hsid, truthyStr]
  simp only [hg, Bool.false_eq_true, if_false] at h
  simp only [hdbg, Bool.false_eq_true, if_false] at h
  simp only [hsid, hresp, htok] at h
  obtain ⟨hid, hv, ht, hcfg, _, _, _, _, _⟩ := syncCtorTail_ok h
  exact ⟨ht, by rw [hcfg]; exact mem_setHeader _ _ _⟩

/-- On the existing-sandbox branch (constructor lines 235-250, the branch
every connect and resume session passes through), the session token keeps
an opts-provided token and otherwise takes the get-info one, while the
header map is rewritten from the get-info response token whenever that
response carries one. -/
theorem syncCtor_info_branch {cp : ControlPlane} {opts : SandboxOpts}
    {fresh : Nat} {s : Session} {n : Nat} {sid : String}
    (hsid : opts.sandbox_id = some sid)
    (hdbg : (ctorConfig opts).debug = false)
    (h : (syncCtor cp none none none opts fresh).2 = .ok (s, n)) :
    s.envd_access_token =
      (match opts.envd_access_token with
       | some t => some t
       | none => (cp.infoResp sid).envd_access_token) ∧
    s.config.headers =
      (match (cp.infoResp sid).envd_access_token with
       | some t => setHeader (ctorConfig opts).headers "X-Access-Token" t
       | none => (ctorConfig opts).headers) ∧
    s.envdClientHeaders =
      (if containsBrd sid then none else some s.config.headers) := by
  unfold syncCtor at h
  have hg : (truthyStr opts.sandbox_id
      && ((none : Option (List (String × String))).isSome
          || (none : Option String).isSome)) = false := by
    simp
  simp only [hg, Bool.false_eq_true, if_false] at h
  simp only [hdbg, Bool.false_eq_true, if_false] at h
  simp only [hsid] at h
  obtain ⟨hid, hv, ht, hcfg, _, _, _, _, hclient⟩ := syncCtorTail_ok h
  refine ⟨ht, ?_, by rw [hclient, hcfg]⟩
  cases hir : (cp.infoResp sid).envd_access_token with
  | some t =>
    simp only [hir] at hcfg
    rw [hcfg]
  | none =>
    simp only [hir] at hcfg
    rw [hcfg]

/-- If the SSH connect command of a marker identity does not match the
pattern, the constructor raises the fatal parse error — no session is
constructed. -/
theorem syncCtor_parse_fail {cp : ControlPlane} {opts : SandboxOpts}
    {fresh : Nat} {sid : String}
    (hsid : opts.sandbox_id = some sid)
    (hdbg : (ctorConfig opts).debug = false)
    (hbrd : containsBrd sid = true)
    (hre : reSearchSsh (cp.sshResp sid).connect_command.data = none) :
    (syncCtor cp none none none opts fresh).2 = .error parseErrMsg := by
  unfold syncCtor
  have hg : (truthyStr opts.sandbox_id
      && ((none : Option (List (String × String))).isSome
          || (none : Option String).isSome)) = false := by
    simp
  simp only [hg, Bool.false_eq_true, if_false, hdbg, hsid]
  unfold syncCtorTail
  simp [hbrd, hre]

/-- `Version` order is transported across the two gate constants: below
0.1.5 implies below 0.2.4. -/
theorem pyVersion_lt_trans_gates {v : PyVersion}
    (h : PyVersion.lt v ⟨0, 1, 5⟩ = true) :
    PyVersion.lt v ⟨0, 2, 4⟩ = true := by
  obtain ⟨a, b, c⟩ := v
  unfold PyVersion.lt at h ⊢
  simp only at h ⊢
  split_ifs at h ⊢ <;> simp_all

/-- The lifecycle methods assign no session attribute: folding any
sequence of operations leaves token and config untouched. -/
theorem applyOp_fold_preserves (s : Session) (ops : List SessionOp) :
    (ops.foldl applyOp s).envd_access_token = s.envd_access_token ∧
    (ops.foldl applyOp s).config = s.config := by
  induction ops generalizing s with
  | nil => exact ⟨rfl, rfl⟩
  | cons op rest ih =>
    have hstep : applyOp s op = s := by cases op <;> rfl
    rw [List.foldl_cons, hstep]
    exact ih s

/-! ## Concrete oracles and sample runs used by the witnesses -/

/-- A concrete control plane for evaluating the theorems on explicit
inputs. -/
def testCP : ControlPlane :=
  { infoResp := fun _ =>
      { envd_version := some ⟨0, 2, 0⟩, envd_access_token := some "tok" },
    createResp := fun _ _ =>
      { sandbox_id := "sbx-http-1", envd_version := some ⟨0, 3, 0⟩,
        envd_access_token := some "tok" },
    sshResp := fun _ =>
      { connect_command := "ssh -p 2222 user@10.0.0.5",
        auth_password := "pw" },
    connResp := fun _ _ =>
      { envd_version := some ⟨0, 3, 0⟩, envd_access_token := some "tok" },
    resumeResp := fun _ _ _ =>
      { envd_version := some ⟨0, 3, 0⟩, envd_access_token := some "tok" } }

/-- A control plane whose SSH connect command lacks the at sign. -/
def badSshCP : ControlPlane :=
  { testCP with
    sshResp := fun _ =>
      { connect_command := "ssh -p 2222 malformed", auth_password := "pw" } }

/-- The session produced by the plain create path of the sync
constructor against `testCP`. -/
def sampleSession : Session :=
  { sandbox_id := "sbx-http-1", envd_version := some ⟨0, 3, 0⟩,
    envd_access_token := some "tok",
    config := { headers := [("X-Access-Token", "tok")], debug := false },
    ssh_host := none, ssh_port := none, ssh_username := none,
    ssh_password := none, surfaces := httpSurfaces,
    envdClientHeaders := some [("X-Access-Token", "tok")],
    limits := SandboxApiBase_limits, poolId := some 0 }

example : (syncCtor testCP none none none {} 0).2 =
    .ok (sampleSession, 1) := rfl

/-- A session constructed by the connect classmethod follows the routing
schema (its ok-results all come from the constructor). -/
theorem cls_connect_ok {cp sandbox_id timeout fresh s n}
    (h : (cls_connect cp sandbox_id timeout fresh).2 = .ok (s, n)) :
    s.surfaces =
      (if containsBrd s.sandbox_id then syncSshSurfaces
       else httpSurfaces) := by
  unfold cls_connect at h
  by_cases hb : containsBrd sandbox_id = true
  · simp only [hb, if_true] at h
    cases hre : reSearchSsh (cp.sshResp sandbox_id).connect_command.data with
    | none => simp [hre] at h
    | some m =>
      simp only [hre] at h
      exact (syncCtor_ok h).2.2.2.1
  · simp only [Bool.not_eq_true] at hb
    simp only [hb, Bool.false_eq_true, if_false] at h
    exact (syncCtor_ok h).2.2.2.1

/-- A session constructed by the resume classmethod follows the routing
schema. -/
theorem cls_resume_ok {cp sandbox_id auto_pause timeout fresh s n}
    (h : (cls_resume cp sandbox_id auto_pause timeout fresh).2 =
          .ok (s, n)) :
    s.surfaces =
      (if containsBrd s.sandbox_id then syncSshSurfaces
       else httpSurfaces) := by
  unfold cls_resume at h
  by_cases hb : containsBrd sandbox_id = true
  · simp only [hb, if_true] at h
    cases hre : reSearchSsh (cp.sshResp sandbox_id).connect_command.data with
    | none => simp [hre] at h
    | some m =>
      simp only [hre] at h
      exact (syncCtor_ok h).2.2.2.1
  · simp only [Bool.not_eq_true] at hb
    simp only [hb, Bool.false_eq_true, if_false] at h
    exact (syncCtor_ok h).2.2.2.1

/-! ## Claim theorems -/

/-- C1: for every session construction (sync constructor — covering
create and connect-by-id —, async constructor — through which every async
create, connect and resume path builds its session —, and the sync
connect and resume classmethods), the backend is chosen deterministically
from the identity alone by the case-insensitive substring test for the
marker `brd`: with the marker, exactly the SSH/ADB surface set is
initialized, otherwise exactly the HTTP surface set; the two sets are
disjoint, so never both. -/
theorem claim_transport_selection :
    (∀ cp template timeout metadata opts fresh s n,
        (syncCtor cp template timeout metadata opts fresh).2 = .ok (s, n) →
        s.surfaces =
          (if containsBrd s.sandbox_id then syncSshSurfaces
           else httpSurfaces))
    ∧ (∀ opts fresh,
        ((asyncCtor opts fresh).1).surfaces =
          (if containsBrd opts.sandbox_id then asyncSshSurfaces
           else httpSurfaces))
    ∧ (∀ cp sandbox_id timeout fresh s n,
        (cls_connect cp sandbox_id timeout fresh).2 = .ok (s, n) →
        s.surfaces =
          (if containsBrd s.sandbox_id then syncSshSurfaces
           else httpSurfaces))
    ∧ (∀ cp sandbox_id auto_pause timeout fresh s n,
        (cls_resume cp sandbox_id auto_pause timeout fresh).2 =
            .ok (s, n) →
        s.surfaces =
          (if containsBrd s.sandbox_id then syncSshSurfaces
           else httpSurfaces))
    ∧ (∀ x ∈ syncSshSurfaces, x.isSsh = true)
    ∧ (∀ x ∈ asyncSshSurfaces, x.isSsh = true)
    ∧ (∀ x ∈ httpSurfaces, x.isSsh = false)
    ∧ containsBrd "X-BRD-7" = true ∧ containsBrd "x-brd-7" = true
    ∧ containsBrd "sandbox42" = false := by
  refine ⟨?_, ?_, ?_, ?_, by decide, by decide, by decide, by decide,
    by decide, by decide⟩
  · intro cp template timeout metadata opts fresh s n h
    exact (syncCtor_ok h).2.2.2.1
  · intro opts fresh
    unfold asyncCtor
    by_cases hb : containsBrd opts.sandbox_id = true
    · simp [hb]
    · simp only [Bool.not_eq_true] at hb
      simp [hb]
  · intro cp sandbox_id timeout fresh s n h
    exact cls_connect_ok h
  · intro cp sandbox_id auto_pause timeout fresh s n h
    exact cls_resume_ok h

/-- C1 witness: the sample create run chooses the HTTP surface set. -/
theorem claim_transport_selection_witness :
    sampleSession.surfaces =
      (if containsBrd sampleSession.sandbox_id then syncSshSurfaces
       else httpSurfaces) :=
  claim_transport_selection.1 testCP none none none {} 0 sampleSession 1
    rfl

/-- C2: the parser extracts (port, username, host) per the fixed pattern
— on `ssh -p 2222 user@10.0.0.5` it yields 2222, `user`, `10.0.0.5`; a
string without `@` never matches; and on a non-matching connect command
both the connect classmethod and the constructor raise the fatal parse
error and return no session. -/
theorem claim_ssh_parse :
    reSearchSsh "ssh -p 2222 user@10.0.0.5".data =
      some ⟨2222, "user", "10.0.0.5"⟩
    ∧ (∀ cmd : String, '@' ∉ cmd.data → reSearchSsh cmd.data = none)
    ∧ (∀ cp sandbox_id timeout fresh, containsBrd sandbox_id = true →
        reSearchSsh (cp.sshResp sandbox_id).connect_command.data = none →
        (cls_connect cp sandbox_id timeout fresh).2 = .error parseErrMsg)
    ∧ (∀ (cp : ControlPlane) (opts : SandboxOpts) (fresh : Nat)
          (sid : String),
        opts.sandbox_id = some sid → (ctorConfig opts).debug = false →
        containsBrd sid = true →
        reSearchSsh (cp.sshResp sid).connect_command.data = none →
        (syncCtor cp none none none opts fresh).2 = .error parseErrMsg) := by
  refine ⟨by decide, ?_, ?_, ?_⟩
  · intro cmd hnot
    cases hre : reSearchSsh cmd.data with
    | none => rfl
    | some m => exact absurd (reSearchSsh_at hre) hnot
  · intro cp sandbox_id timeout fresh hb hre
    unfold cls_connect
    simp only [hb, if_true]
    simp [hre]
  · intro cp opts fresh sid hsid hdbg hb hre
    exact syncCtor_parse_fail hsid hdbg hb hre

/-- C2 witness: the at-sign-free command of `badSshCP` does not match,
and connecting to a marker identity against it raises the parse error. -/
theorem claim_ssh_parse_witness :
    reSearchSsh "ssh -p 2222 malformed".data = none ∧
    (cls_connect badSshCP "x-brd-7" none 0).2 = .error parseErrMsg :=
  ⟨claim_ssh_parse.2.1 "ssh -p 2222 malformed" (by decide),
   claim_ssh_parse.2.2.1 badSshCP "x-brd-7" none 0 (by decide)
     (by decide)⟩

/-- C3: for marker identities, resume performs exactly the same steps and
produces the same session as connect, whatever the auto-pause and timeout
arguments; both skip the resume-or-connect lifecycle call and fetch
sandbox info and fresh SSH credentials. -/
theorem claim_resume_equals_connect (cp : ControlPlane)
    (sandbox_id : String) (auto_pause : Bool)
    (timeout timeout2 : Option Nat) (fresh : Nat)
    (hb : containsBrd sandbox_id = true) :
    cls_resume cp sandbox_id auto_pause timeout fresh =
      cls_connect cp sandbox_id timeout2 fresh
    ∧ (∀ a ∈ (cls_resume cp sandbox_id auto_pause timeout fresh).1,
        a.isResumeCall = false)
    ∧ ApiCall.getInfo sandbox_id ∈
        (cls_resume cp sandbox_id auto_pause timeout fresh).1
    ∧ ApiCall.getSsh sandbox_id ∈
        (cls_resume cp sandbox_id auto_pause timeout fresh).1 := by
  refine ⟨?_, ?_, ?_, ?_⟩
  · unfold cls_resume cls_connect
    simp only [hb, if_true]
  · intro a ha
    unfold cls_resume at ha
    simp only [hb, if_true] at ha
    cases hre : reSearchSsh (cp.sshResp sandbox_id).connect_command.data with
    | none =>
      simp only [hre] at ha
      simp at ha
      rcases ha with rfl | rfl <;> rfl
    | some m =>
      simp only [hre] at ha
      simp at ha
      rcases ha with rfl | rfl | hmem
      · rfl
      · rfl
      · exact syncCtor_no_resume hmem
  · unfold cls_resume
    simp only [hb, if_true]
    cases hre : reSearchSsh (cp.sshResp sandbox_id).connect_command.data with
    | none => simp [hre]
    | some m => simp [hre]
  · unfold cls_resume
    simp only [hb, if_true]
    cases hre : reSearchSsh (cp.sshResp sandbox_id).connect_command.data with
    | none => simp [hre]
    | some m => simp [hre]

/-- C3 witness: on a concrete marker identity, resume with auto-pause and
one timeout equals connect with another timeout. -/
theorem claim_resume_equals_connect_witness :
    cls_resume testCP "x-brd-7" true (some 7) 0 =
      cls_connect testCP "x-brd-7" (some 9) 0 :=
  (claim_resume_equals_connect testCP "x-brd-7" true (some 7) (some 9) 0
    (by decide)).1

/-- C4: the metrics version gate — a cached daemon version strictly below
0.1.5 raises the capability error with no control-plane call; at least
0.1.5 but below 0.2.4 proceeds to the call and only sets the non-fatal
disk warning; at least 0.2.4 proceeds with no warning. -/
theorem claim_metrics_version_gate (s : Session) (v : PyVersion)
    (hv : s.envd_version = some v) :
    (PyVersion.lt v ⟨0, 1, 5⟩ = true →
      Sandbox_get_metrics s =
        ([], .error "Metrics are not supported in this version of the sandbox, please rebuild your template."))
    ∧ (PyVersion.lt v ⟨0, 1, 5⟩ = false →
        PyVersion.lt v ⟨0, 2, 4⟩ = true →
        Sandbox_get_metrics s =
          ([.getMetricsCall s.sandbox_id], .ok true))
    ∧ (PyVersion.lt v ⟨0, 2, 4⟩ = false →
        Sandbox_get_metrics s =
          ([.getMetricsCall s.sandbox_id], .ok false)) := by
  refine ⟨?_, ?_, ?_⟩
  · intro h1
    unfold Sandbox_get_metrics
    simp [hv, h1]
  · intro h1 h2
    unfold Sandbox_get_metrics
    simp [hv, h1, h2]
  · intro h2
    have h1 : PyVersion.lt v ⟨0, 1, 5⟩ = false := by
      by_cases h0 : PyVersion.lt v ⟨0, 1, 5⟩ = true
      · rw [pyVersion_lt_trans_gates h0] at h2
        exact absurd h2 (by simp)
      · simpa using h0
    unfold Sandbox_get_metrics
    simp [hv, h1, h2]

/-- Session with a given cached daemon version, for evaluating the
metrics gate. -/
def sessionV (v : PyVersion) : Session :=
  { sampleSession with envd_version := some v }

/-- C4 witness: the gate at the three versions named by the spec. -/
theorem claim_metrics_version_gate_witness :
    Sandbox_get_metrics (sessionV ⟨0, 1, 0⟩) =
      ([], .error "Metrics are not supported in this version of the sandbox, please rebuild your template.")
    ∧ Sandbox_get_metrics (sessionV ⟨0, 2, 0⟩) =
        ([.getMetricsCall "sbx-http-1"], .ok true)
    ∧ Sandbox_get_metrics (sessionV ⟨0, 3, 0⟩) =
        ([.getMetricsCall "sbx-http-1"], .ok false) :=
  ⟨(claim_metrics_version_gate (sessionV ⟨0, 1, 0⟩) ⟨0, 1, 0⟩ rfl).1
      (by decide),
   (claim_metrics_version_gate (sessionV ⟨0, 2, 0⟩) ⟨0, 2, 0⟩ rfl).2.1
      (by decide) (by decide),
   (claim_metrics_version_gate (sessionV ⟨0, 3, 0⟩) ⟨0, 3, 0⟩ rfl).2.2
      (by decide)⟩

/-- C5: on an HTTP-backed session, a 502 probe response yields `false`
with no error; any other non-success response raises the decoded typed
error; a probe timeout raises the distinguished timeout error and never
the generic network error. -/
theorem claim_is_running_errors (s : Session)
    (hs : List (String × String)) (hcl : s.envdClientHeaders = some hs) :
    is_running s (.status 502) = .ok false
    ∧ (∀ code, ¬(200 ≤ code ∧ code < 300) → code ≠ 502 →
        is_running s (.status code) = .error (.apiErr code))
    ∧ is_running s .timeout = .error .timeoutErr
    ∧ (∀ probe, is_running s probe ≠ .error .genericNetwork) := by
  refine ⟨?_, ?_, ?_, ?_⟩
  · unfold is_running
    simp [hcl]
  · intro code hc h5
    unfold is_running
    simp [hcl, h5, handle_envd_api_exception, hc]
  · unfold is_running
    simp [hcl, format_request_timeout_error]
  · intro probe
    unfold is_running
    cases probe with
    | timeout => simp [hcl, format_request_timeout_error]
    | status code =>
      by_cases h5 : code = 502
      · simp [hcl, h5]
      · simp only [hcl, h5, if_false]
        unfold handle_envd_api_exception
        split
        · rename_i x e heq
          split at heq
          · simp at heq
          · simp only [Option.some.injEq] at heq
            subst heq
            simp
        · simp

/-- C5 witness: the three probe outcomes on the sample HTTP session. -/
theorem claim_is_running_errors_witness :
    is_running sampleSession (.status 502) = .ok false
    ∧ is_running sampleSession (.status 500) = .error (.apiErr 500)
    ∧ is_running sampleSession .timeout = .error .timeoutErr :=
  ⟨(claim_is_running_errors sampleSession [("X-Access-Token", "tok")]
      rfl).1,
   (claim_is_running_errors sampleSession [("X-Access-Token", "tok")]
      rfl).2.1 500 (by decide) (by decide),
   (claim_is_running_errors sampleSession [("X-Access-Token", "tok")]
      rfl).2.2.1⟩

/-- C6: kill is idempotent — a kill that finds the sandbox reports
`true`; a second kill after a successful kill, or a kill of an identity
unknown to the control plane, reports `false` and raises no error (the
operation is total). -/
theorem claim_kill_idempotent (running : List String)
    (sandbox_id : String) :
    (sandbox_id ∈ running → (cls_kill running sandbox_id).2 = true)
    ∧ (cls_kill (cls_kill running sandbox_id).1 sandbox_id).2 = false
    ∧ (sandbox_id ∉ running →
        cls_kill running sandbox_id = (running, false)) := by
  by_cases hm : sandbox_id ∈ running
  · refine ⟨fun _ => by simp [cls_kill, hm], ?_, fun hn => absurd hm hn⟩
    have hnotin :
        sandbox_id ∉ running.filter (fun x => x != sandbox_id) := by
      simp [List.mem_filter]
    simp [cls_kill, hm, hnotin]
  · have h1 : cls_kill running sandbox_id = (running, false) := by
      simp [cls_kill, hm]
    exact ⟨fun hmem => absurd hmem hm, by rw [h1]; simp [cls_kill, hm],
      fun _ => h1⟩

/-- C6 witness: killing a live sandbox reports true, the repeated kill
reports false, and killing an unknown identity reports false. -/
theorem claim_kill_idempotent_witness :
    (cls_kill ["a", "b"] "a").2 = true
    ∧ (cls_kill (cls_kill ["a", "b"] "a").1 "a").2 = false
    ∧ cls_kill ["a", "b"] "zz" = (["a", "b"], false) :=
  ⟨(claim_kill_idempotent ["a", "b"] "a").1 (by decide),
   (claim_kill_idempotent ["a", "b"] "a").2.1,
   (claim_kill_idempotent ["a", "b"] "zz").2.2 (by decide)⟩

/-- C7: set-timeout is full replacement — after `set_timeout N` then
`set_timeout M` the remote deadline is the one `M` alone determines
(last write wins, never additive), and the method changes no local
session state, issuing only the control-plane call. -/
theorem claim_set_timeout_replaces (s : Session) (deadline : Option Nat)
    (now now2 n m : Nat) :
    remote_set_timeout (remote_set_timeout deadline now n) now2 m =
      remote_set_timeout deadline now2 m
    ∧ remote_set_timeout (remote_set_timeout deadline now n) now2 m =
        some (now2 + m)
    ∧ (0 < n →
        remote_set_timeout (remote_set_timeout deadline now n) now2 m ≠
          some (now2 + (n + m)))
    ∧ (Sandbox_set_timeout s n).1 = s
    ∧ (Sandbox_set_timeout (Sandbox_set_timeout s n).1 m).1 = s
    ∧ (Sandbox_set_timeout s n).2 = .setTimeoutCall s.sandbox_id n := by
  refine ⟨rfl, rfl, ?_, rfl, rfl, rfl⟩
  intro hn h
  simp only [remote_set_timeout, Option.some.injEq] at h
  omega

/-- C7 witness: with deadlines of 30 then 60 seconds the result is not
the additive 90-second deadline. -/
theorem claim_set_timeout_replaces_witness :
    remote_set_timeout (remote_set_timeout none 100 30) 100 60 ≠
      some (100 + (30 + 60)) :=
  (claim_set_timeout_replaces sampleSession none 100 100 30 60).2.2.1
    (by decide)

/-- The session produced by connecting-by-id through the sync
constructor (first get-info token acquisition) against `testCP`. -/
def sampleInfoSession : Session :=
  { sandbox_id := "sbx-9", envd_version := some ⟨0, 2, 0⟩,
    envd_access_token := some "tok",
    config := { headers := [("X-Access-Token", "tok")], debug := false },
    ssh_host := none, ssh_port := none, ssh_username := none,
    ssh_password := none, surfaces := httpSurfaces,
    envdClientHeaders := some [("X-Access-Token", "tok")],
    limits := SandboxApiBase_limits, poolId := some 0 }

/-- The session produced by the connect (and, with identical responses,
resume) classmethod against `testCP` on an HTTP-backed identity. -/
def sampleConnectSession : Session :=
  { sandbox_id := "sbx-9", envd_version := some ⟨0, 3, 0⟩,
    envd_access_token := some "tok",
    config := { headers := [("X-Access-Token", "tok")], debug := false },
    ssh_host := none, ssh_port := none, ssh_username := none,
    ssh_password := none, surfaces := httpSurfaces,
    envdClientHeaders := some [("X-Access-Token", "tok")],
    limits := SandboxApiBase_limits, poolId := some 0 }

/-- C8: wherever the token is obtained — at creation, at first get-info
(connecting by passing a sandbox_id to the constructor), at connect or at
resume — it becomes the session token and the `X-Access-Token` header of
the session config, baked into the envd client, which issues every
request with those headers; and no lifecycle operation changes token or
config — the token is never rotated.  The connect and resume paths
re-fetch info inside the constructor, whose line 250 rewrites the header
from the get-info response; there the statement takes the control plane
at its contract of one token per sandbox: the get-info response repeats
the acquired token or omits it. -/
theorem claim_access_token_attached :
    (∀ cp template timeout metadata opts fresh s n t,
        opts.sandbox_id = none → opts.envd_access_token = none →
        (ctorConfig opts).debug = false →
        (syncCtor cp template timeout metadata opts fresh).2 =
            .ok (s, n) →
        (cp.createResp (pyOrStr template default_template)
            (pyOrNat timeout default_sandbox_timeout)).envd_access_token =
          some t →
        s.envd_access_token = some t ∧
        ("X-Access-Token", t) ∈ s.config.headers ∧
        (∀ route,
          ("X-Access-Token", t) ∈
            (envdGet s.config.headers route).headers))
    ∧ (∀ (cp : ControlPlane) (opts : SandboxOpts) (fresh : Nat)
          (s : Session) (n : Nat) (sid t : String),
        opts.sandbox_id = some sid → opts.envd_access_token = none →
        (ctorConfig opts).debug = false →
        (syncCtor cp none none none opts fresh).2 = .ok (s, n) →
        (cp.infoResp sid).envd_access_token = some t →
        s.envd_access_token = some t ∧
        ("X-Access-Token", t) ∈ s.config.headers ∧
        (∀ route,
          ("X-Access-Token", t) ∈
            (envdGet s.config.headers route).headers))
    ∧ (∀ cp sandbox_id timeout fresh s n t,
        containsBrd sandbox_id = false →
        (cp.connResp sandbox_id
            (pyOrNat timeout default_sandbox_timeout)).envd_access_token =
          some t →
        ((cp.infoResp sandbox_id).envd_access_token = none ∨
          (cp.infoResp sandbox_id).envd_access_token = some t) →
        (cls_connect cp sandbox_id timeout fresh).2 = .ok (s, n) →
        s.envd_access_token = some t ∧
        ("X-Access-Token", t) ∈ s.config.headers ∧
        s.envdClientHeaders = some s.config.headers ∧
        (∀ route,
          ("X-Access-Token", t) ∈
            (envdGet s.config.headers route).headers))
    ∧ (∀ cp sandbox_id auto_pause timeout fresh s n t,
        containsBrd sandbox_id = false →
        (cp.resumeResp sandbox_id auto_pause
            (pyOrNat timeout default_sandbox_timeout)).envd_access_token =
          some t →
        ((cp.infoResp sandbox_id).envd_access_token = none ∨
          (cp.infoResp sandbox_id).envd_access_token = some t) →
        (cls_resume cp sandbox_id auto_pause timeout fresh).2 =
            .ok (s, n) →
        s.envd_access_token = some t ∧
        ("X-Access-Token", t) ∈ s.config.headers ∧
        s.envdClientHeaders = some s.config.headers ∧
        (∀ route,
          ("X-Access-Token", t) ∈
            (envdGet s.config.headers route).headers))
    ∧ (∀ (hs : List (String × String)) (route : String),
        (envdGet hs route).headers = hs)
    ∧ (∀ (s : Session) (ops : List SessionOp),
        (ops.foldl applyOp s).envd_access_token = s.envd_access_token ∧
        (ops.foldl applyOp s).config = s.config) := by
  refine ⟨?_, ?_, ?_, ?_, fun _ _ => rfl, ?_⟩
  · intro cp template timeout metadata opts fresh s n t h1 h2 h3 h4 h5
    obtain ⟨ha, hb⟩ := syncCtor_create_token h1 h2 h3 h4 h5
    exact ⟨ha, hb, fun _ => hb⟩
  · intro cp opts fresh s n sid t hsid htok hdbg hok hresp
    obtain ⟨ht, hhd, hclient⟩ := syncCtor_info_branch hsid hdbg hok
    simp only [htok, hresp] at ht hhd
    have hmem : ("X-Access-Token", t) ∈ s.config.headers := by
      rw [hhd]
      exact mem_setHeader _ _ _
    exact ⟨ht, hmem, fun _ => hmem⟩
  · intro cp sandbox_id timeout fresh s n t hb hconn hinfo hok
    unfold cls_connect at hok
    simp only [hb, Bool.false_eq_true, if_false] at hok
    simp only [hconn] at hok
    obtain ⟨ht, hhd, hclient⟩ :=
      syncCtor_info_branch (by rfl) (by rfl) hok
    simp only [hb, Bool.false_eq_true, if_false] at hclient
    have hmem : ("X-Access-Token", t) ∈ s.config.headers := by
      rcases hinfo with hi | hi
      · simp only [hi] at hhd
        rw [hhd]
        exact mem_setHeader [] "X-Access-Token" t
      · simp only [hi] at hhd
        rw [hhd]
        exact mem_setHeader _ _ _
    exact ⟨ht, hmem, hclient, fun _ => hmem⟩
  · intro cp sandbox_id auto_pause timeout fresh s n t hb hconn hinfo hok
    unfold cls_resume at hok
    simp only [hb, Bool.false_eq_true, if_false] at hok
    simp only [hconn] at hok
    obtain ⟨ht, hhd, hclient⟩ :=
      syncCtor_info_branch (by rfl) (by rfl) hok
    simp only [hb, Bool.false_eq_true, if_false] at hclient
    have hmem : ("X-Access-Token", t) ∈ s.config.headers := by
      rcases hinfo with hi | hi
      · simp only [hi] at hhd
        rw [hhd]
        exact mem_setHeader [] "X-Access-Token" t
      · simp only [hi] at hhd
        rw [hhd]
        exact mem_setHeader _ _ _
    exact ⟨ht, hmem, hclient, fun _ => hmem⟩
  · intro s ops
    exact applyOp_fold_preserves s ops

/-- C8 witness: against `testCP` (which hands out the token `tok`
consistently), all four acquisition paths — create, connect-by-id
through the constructor, the connect classmethod and the resume
classmethod — produce sessions whose token is `tok` and whose headers,
carried by every envd client request, contain it; and a concrete
sequence of lifecycle operations leaves the token unchanged. -/
theorem claim_access_token_attached_witness :
    sampleSession.envd_access_token = some "tok"
    ∧ ("X-Access-Token", "tok") ∈ sampleSession.config.headers
    ∧ ("X-Access-Token", "tok") ∈
        (envdGet sampleSession.config.headers "/health").headers
    ∧ sampleInfoSession.envd_access_token = some "tok"
    ∧ ("X-Access-Token", "tok") ∈ sampleInfoSession.config.headers
    ∧ sampleConnectSession.envd_access_token = some "tok"
    ∧ ("X-Access-Token", "tok") ∈ sampleConnectSession.config.headers
    ∧ sampleConnectSession.envdClientHeaders =
        some sampleConnectSession.config.headers
    ∧ ("X-Access-Token", "tok") ∈
        (envdGet sampleConnectSession.config.headers "/health").headers
    ∧ ("X-Access-Token", "tok") ∈
        (envdGet sampleConnectSession.config.headers "/metrics").headers
    ∧ ([SessionOp.setTimeoutOp 60, SessionOp.killOp].foldl applyOp
        sampleSession).envd_access_token =
      sampleSession.envd_access_token :=
  ⟨(claim_access_token_attached.1 testCP none none none {} 0
      sampleSession 1 "tok" rfl rfl rfl rfl rfl).1,
   (claim_access_token_attached.1 testCP none none none {} 0
      sampleSession 1 "tok" rfl rfl rfl rfl rfl).2.1,
   (claim_access_token_attached.1 testCP none none none {} 0
      sampleSession 1 "tok" rfl rfl rfl rfl rfl).2.2 "/health",
   (claim_access_token_attached.2.1 testCP { sandbox_id := some "sbx-9" }
      0 sampleInfoSession 1 "sbx-9" "tok" rfl rfl rfl rfl rfl).1,
   (claim_access_token_attached.2.1 testCP { sandbox_id := some "sbx-9" }
      0 sampleInfoSession 1 "sbx-9" "tok" rfl rfl rfl rfl rfl).2.1,
   (claim_access_token_attached.2.2.1 testCP "sbx-9" none 0
      sampleConnectSession 1 "tok" (by decide) rfl (Or.inr rfl) rfl).1,
   (claim_access_token_attached.2.2.1 testCP "sbx-9" none 0
      sampleConnectSession 1 "tok" (by decide) rfl (Or.inr rfl) rfl).2.1,
   (claim_access_token_attached.2.2.1 testCP "sbx-9" none 0
      sampleConnectSession 1 "tok" (by decide) rfl (Or.inr rfl) rfl).2.2.1,
   (claim_access_token_attached.2.2.1 testCP "sbx-9" none 0
      sampleConnectSession 1 "tok" (by decide) rfl (Or.inr rfl)
      rfl).2.2.2 "/health",
   (claim_access_token_attached.2.2.2.1 testCP "sbx-9" false none 0
      sampleConnectSession 1 "tok" (by decide) rfl (Or.inr rfl)
      rfl).2.2.2 "/metrics",
   (claim_access_token_attached.2.2.2.2.2 sampleSession
      [SessionOp.setTimeoutOp 60, SessionOp.killOp]).1⟩

/-- C9 counterexample: the claim says the outbound pool is shared across
all sessions of one process rather than per-session.  Two sessions
constructed one after the other in the same process (the second
allocation continuing from the counter the first returned) own distinct
pools: the constructor builds a fresh transport per session. -/
theorem claim_pool_shared_counterexample :
    (syncCtor testCP none none none {} 0).2.map
        (fun p => (p.1.poolId, p.2)) = .ok (some 0, 1)
    ∧ (syncCtor testCP none none none {} 1).2.map
        (fun p => (p.1.poolId, p.2)) = .ok (some 1, 2)
    ∧ (some 0 : Option Nat) ≠ some 1 :=
  ⟨rfl, rfl, by decide⟩

/-- C9 amended: the pool limits configuration (20 max connections, 10
keep-alive) is one class-level constant shared by every session, and
every constructed session applies it — but each sync construction
allocates its own fresh transport/pool, and the async constructor does so
on the HTTP branch; the pool itself is per-session, not process-wide. -/
theorem claim_pool_limits_per_session :
    SandboxApiBase_limits.max_connections = 20
    ∧ SandboxApiBase_limits.max_keepalive_connections = 10
    ∧ (∀ cp template timeout metadata opts fresh s n,
        (syncCtor cp template timeout metadata opts fresh).2 =
            .ok (s, n) →
        s.limits = SandboxApiBase_limits ∧ s.poolId = some fresh ∧
        n = fresh + 1)
    ∧ (∀ opts fresh,
        ((asyncCtor opts fresh).1).limits = SandboxApiBase_limits) := by
  refine ⟨rfl, rfl, ?_, ?_⟩
  · intro cp template timeout metadata opts fresh s n h
    obtain ⟨hlim, hpool, hn, _, _⟩ := syncCtor_ok h
    exact ⟨hlim, hpool, hn⟩
  · intro opts fresh
    unfold asyncCtor
    by_cases hb : containsBrd opts.sandbox_id = true
    · simp [hb]
    · simp only [Bool.not_eq_true] at hb
      simp [hb]

/-- C9 amended witness: the sample session carries the shared limits and
the pool allocated at counter 0. -/
theorem claim_pool_limits_per_session_witness :
    sampleSession.limits = SandboxApiBase_limits
    ∧ sampleSession.poolId = some 0 :=
  ⟨(claim_pool_limits_per_session.2.2.1 testCP none none none {} 0
      sampleSession 1 rfl).1,
   (claim_pool_limits_per_session.2.2.1 testCP none none none {} 0
      sampleSession 1 rfl).2.1⟩

/-- C10 counterexample: the claim says any constructor call passing a
sandbox_id in opts together with metadata raises before any network call.
python truthiness breaks this for the empty-string identity: with
`sandbox_id = ""` and metadata set, no exception is raised, the get-info
network call is made, and a session is constructed. -/
theorem claim_ctor_guard_counterexample :
    (syncCtor testCP none none (some [("k", "v")])
        { sandbox_id := some "" } 0).1 = [.getInfo ""]
    ∧ ((syncCtor testCP none none (some [("k", "v")])
          { sandbox_id := some "" } 0).2).toOption.map
        (fun p => p.1.sandbox_id) = some "" :=
  ⟨rfl, rfl⟩

/-- C10 amended: for a non-empty sandbox_id in opts together with
non-None metadata or template, the constructor raises the
SandboxException before building any connection configuration or making
any network call (empty trace), and no session is constructed. -/
theorem claim_ctor_guard (cp : ControlPlane) (template : Option String)
    (timeout : Option Nat) (metadata : Option (List (String × String)))
    (opts : SandboxOpts) (fresh : Nat) (sid : String)
    (hsid : opts.sandbox_id = some sid) (hne : sid ≠ "")
    (hmt : metadata.isSome = true ∨ template.isSome = true) :
    syncCtor cp template timeout metadata opts fresh =
      ([], .error guardMsg) := by
  unfold syncCtor
  have hg : (truthyStr opts.sandbox_id
      && (metadata.isSome || template.isSome)) = true := by
    rcases hmt with hmd | htp
    · simp [hsid, truthyStr, hmd, hne]
    · simp [hsid, truthyStr, htp, hne]
  simp [hg]

/-- C10 amended witness: a non-empty identity together with metadata is
rejected with the guard exception and an empty call trace. -/
theorem claim_ctor_guard_witness :
    syncCtor testCP none none (some [("k", "v")])
      { sandbox_id := some "sbx-1" } 0 = ([], .error guardMsg) :=
  claim_ctor_guard testCP none none (some [("k", "v")])
    { sandbox_id := some "sbx-1" } 0 "sbx-1" rfl (by decide)
    (Or.inl (by decide))

end AgentBox
